import Mathlib

/-!
Shallow embedding of `src/passwordpolicy.c` (a PostgreSQL password-policy
module). Strings are modelled as lists of byte values (`List Nat`); the
ctype predicates are the C-locale ASCII ones the source relies on. The
`ereport(ERROR, ...)` early exits of the C code are modelled as a `Verdict`
sum type returned by the first failing check.
-/

namespace PasswordPolicy

/-- C-locale `isdigit` on a byte value: the ASCII digits `0x30`–`0x39`. -/
def isdigit (c : Nat) : Bool := decide (48 ≤ c) && decide (c ≤ 57)

/-- C-locale `isupper` on a byte value: the ASCII range `A`–`Z`. -/
def isupper (c : Nat) : Bool := decide (65 ≤ c) && decide (c ≤ 90)

/-- C-locale `islower` on a byte value: the ASCII range `a`–`z`. -/
def islower (c : Nat) : Bool := decide (97 ≤ c) && decide (c ≤ 122)

/-- C-locale `isalpha` on a byte value: an upper- or lower-case ASCII
letter. Non-ASCII bytes are non-letters, as the comment in `check_policy`
notes. -/
def isalpha (c : Nat) : Bool := isupper c || islower c

/-- Converts an ASCII string literal into the byte list the C code sees. -/
def ascii (s : String) : List Nat := s.data.map Char.toNat

/-- The five counters accumulated by the classification loop of
`check_policy` (lines 85–93 of the source). -/
structure Tally where
  letter_count : Nat
  number_count : Nat
  spc_char_count : Nat
  upper_count : Nat
  lower_count : Nat
  deriving DecidableEq

/-- One iteration of the classification loop of `check_policy`
(lines 95–112): `isalpha` first (subdivided by `isupper` / `islower`),
else `isdigit`, else the special-character bucket. -/
def classify_char (t : Tally) (c : Nat) : Tally :=
  if isalpha c then
    if isupper c then
      { t with letter_count := t.letter_count + 1, upper_count := t.upper_count + 1 }
    else if islower c then
      { t with letter_count := t.letter_count + 1, lower_count := t.lower_count + 1 }
    else
      { t with letter_count := t.letter_count + 1 }
  else if isdigit c then
    { t with number_count := t.number_count + 1 }
  else
    { t with spc_char_count := t.spc_char_count + 1 }

/-- The single left-to-right pass over the password (the `for` loop of
`check_policy`), starting from all-zero counters. -/
def tally (password : List Nat) : Tally :=
  List.foldl classify_char ⟨0, 0, 0, 0, 0⟩ password

/-- The five policy thresholds; field names follow the C globals
`passMinLength`, `passMinSpcChar`, `passMinNumChar`, `passMinUpperChar`,
`passMinLowerChar` (lines 52–64). -/
structure PolicyConfig where
  passMinLength : Nat
  passMinSpcChar : Nat
  passMinNumChar : Nat
  passMinUpperChar : Nat
  passMinLowerChar : Nat
  deriving DecidableEq

/-- The boot values of the five GUC variables (lines 52–64 and the
`DefineCustomIntVariable` calls). -/
def default_config : PolicyConfig := ⟨8, 2, 2, 2, 2⟩

/-- Rejection reasons, one per distinct `ereport(ERROR, ...)` message of
the source. -/
inductive Reason
  | TooShort
  | ContainsUsername
  | TooFewDigits
  | TooFewSpecial
  | TooFewUppercase
  | TooFewLowercase
  | DictionaryGuessable
  | EncryptedPasswordMatchesUsername
  deriving DecidableEq

/-- Outcome of a password check: silent acceptance, or the first
`ereport(ERROR, ...)` raised. -/
inductive Verdict
  | accept
  | reject (r : Reason)
  deriving DecidableEq

/-- `check_policy` (lines 84–134): tally the password, then compare the
counters against the thresholds in the source's order — numbers, special
characters, upper-case letters, lower-case letters — reporting the first
failure. -/
def check_policy (cfg : PolicyConfig) (password : List Nat) : Verdict :=
  let t := tally password
  if t.number_count < cfg.passMinNumChar then Verdict.reject Reason.TooFewDigits
  else if t.spc_char_count < cfg.passMinSpcChar then Verdict.reject Reason.TooFewSpecial
  else if t.upper_count < cfg.passMinUpperChar then Verdict.reject Reason.TooFewUppercase
  else if t.lower_count < cfg.passMinLowerChar then Verdict.reject Reason.TooFewLowercase
  else Verdict.accept

/-- Does `needle` occur at the head of `haystack`? (the positional match
that C's `strstr` attempts at each offset). -/
def starts_with : List Nat → List Nat → Bool
  | [], _ => true
  | _ :: _, [] => false
  | a :: as, b :: bs => a == b && starts_with as bs

/-- C's `strstr(haystack, needle) != NULL`: `needle` occurs as a
contiguous run somewhere in `haystack`; an empty needle always matches. -/
def strstr_found : List Nat → List Nat → Bool
  | [], needle => needle.isEmpty
  | c :: rest, needle => starts_with needle (c :: rest) || strstr_found rest needle

/-- The `PasswordType` tag of the hook (`PASSWORD_TYPE_PLAINTEXT`,
`PASSWORD_TYPE_MD5`, `PASSWORD_TYPE_SCRAM_SHA_256`). -/
inductive PasswordType
  | plaintext
  | md5
  | scram_sha_256
  deriving DecidableEq

/-- `check_password` (lines 137–186, the `PG_VERSION_NUM >= 100000`
branch). `verify` abstracts `plain_crypt_verify(role, shadow, client) ==
STATUS_OK`; `dict` abstracts the optional cracklib `FascistCheck` (present
only when built with `USE_CRACKLIB`). `validuntil_time` and
`validuntil_null` are carried but, as in the source, never read. -/
def check_password (verify : List Nat → List Nat → List Nat → Bool)
    (cfg : PolicyConfig) (username shadow_pass : List Nat)
    (password_type : PasswordType)
    (validuntil_time : Int) (validuntil_null : Bool)
    (dict : Option (List Nat → Bool)) : Verdict :=
  if password_type ≠ PasswordType.plaintext then
    if verify username shadow_pass username then
      Verdict.reject Reason.EncryptedPasswordMatchesUsername
    else
      Verdict.accept
  else
    let password := shadow_pass
    if password.length < cfg.passMinLength then
      Verdict.reject Reason.TooShort
    else if strstr_found password username then
      Verdict.reject Reason.ContainsUsername
    else
      match check_policy cfg password with
      | Verdict.reject r => Verdict.reject r
      | Verdict.accept =>
        match dict with
        | some crack => if crack password then Verdict.reject Reason.DictionaryGuessable
                        else Verdict.accept
        | none => Verdict.accept

/-- Configuration-time failure (`ereport(ERROR, ...)` during
`define_variables`). -/
inductive ConfigError
  | InconsistentThresholds
  deriving DecidableEq

/-- C `INT_MAX`, the upper GUC bound passed to every
`DefineCustomIntVariable` call. -/
def INT_MAX : Int := 2147483647

/-- The GUC range every variable is registered with in
`define_variables`: minimum 1, maximum `INT_MAX` (lines 256–278). -/
def gucInRange (v : Int) : Bool := decide (1 ≤ v) && decide (v ≤ INT_MAX)

/-- `define_variables` (lines 254–285): each of the five values must lie
in its registered GUC range (an out-of-range assignment is refused by the
GUC machinery), and then the cross-field check of line 280 requires the
sub-minimums to sum to at most the minimum length. -/
def define_variables (min_password_len min_special_chars min_numbers
    min_uppercase_letter min_lowercase_letter : Int) :
    Except ConfigError PolicyConfig :=
  if gucInRange min_password_len then
    if gucInRange min_special_chars then
      if gucInRange min_numbers then
        if gucInRange min_uppercase_letter then
          if gucInRange min_lowercase_letter then
            if min_password_len <
                min_special_chars + min_numbers + min_uppercase_letter +
                  min_lowercase_letter then
              Except.error ConfigError.InconsistentThresholds
            else
              Except.ok ⟨min_password_len.toNat, min_special_chars.toNat,
                min_numbers.toNat, min_uppercase_letter.toNat,
                min_lowercase_letter.toNat⟩
          else Except.error ConfigError.InconsistentThresholds
        else Except.error ConfigError.InconsistentThresholds
      else Except.error ConfigError.InconsistentThresholds
    else Except.error ConfigError.InconsistentThresholds
  else Except.error ConfigError.InconsistentThresholds

/-- Follows the wording of the spec (§4.2 steps 3–4): classify by filters
— alphabetic subdivided into upper/lower, else digit, else special — and
compare the tallies against the thresholds in the fixed order digits,
special, uppercase, lowercase, returning the first failing check. -/
def spec_first_fail (cfg : PolicyConfig) (pw : List Nat) : Verdict :=
  let digits := (pw.filter (fun c => !isalpha c && isdigit c)).length
  let special := (pw.filter (fun c => !isalpha c && !isdigit c)).length
  let upper := (pw.filter (fun c => isalpha c && isupper c)).length
  let lower := (pw.filter (fun c => isalpha c && islower c)).length
  if digits < cfg.passMinNumChar then Verdict.reject Reason.TooFewDigits
  else if special < cfg.passMinSpcChar then Verdict.reject Reason.TooFewSpecial
  else if upper < cfg.passMinUpperChar then Verdict.reject Reason.TooFewUppercase
  else if lower < cfg.passMinLowerChar then Verdict.reject Reason.TooFewLowercase
  else Verdict.accept

/-- The classification loop computes, on top of any starting counters, the
`countP` of each bucket's predicate, with the guards of the source's
`if`/`else if` chain made explicit. -/
theorem foldl_classify_eq (l : List Nat) (t : Tally) :
    List.foldl classify_char t l =
      { letter_count := t.letter_count + l.countP (fun c => isalpha c),
        number_count := t.number_count + l.countP (fun c => !isalpha c && isdigit c),
        spc_char_count := t.spc_char_count + l.countP (fun c => !isalpha c && !isdigit c),
        upper_count := t.upper_count + l.countP (fun c => isupper c),
        lower_count := t.lower_count + l.countP (fun c => !isupper c && islower c) } := by
  induction l generalizing t with
  | nil => simp
  | cons c rest ih =>
    rw [List.foldl_cons, ih]
    cases hU : isupper c <;> cases hL : islower c <;> cases hD : isdigit c <;>
      simp [classify_char, isalpha, hU, hL, hD, List.countP_cons, Tally.mk.injEq] <;>
      omega

/-- Each byte satisfies exactly one of the three top-level guards. -/
theorem countP_class_split (l : List Nat) :
    l.countP (fun c => !isalpha c && isdigit c) +
      l.countP (fun c => !isalpha c && !isdigit c) +
      l.countP (fun c => isalpha c) = l.length := by
  induction l with
  | nil => rfl
  | cons c rest ih =>
    cases hA : isalpha c <;> cases hD : isdigit c <;>
      simp [List.countP_cons, hA, hD] <;> omega

/-- Among letters, the upper and lower buckets are disjoint and exhaust
`isalpha` up to the caseless remainder (empty in ASCII, but the split is
stated without using that). -/
theorem countP_alpha_split (l : List Nat) :
    l.countP (fun c => isupper c) + l.countP (fun c => !isupper c && islower c) ≤
      l.countP (fun c => isalpha c) := by
  induction l with
  | nil => simp
  | cons c rest ih =>
    have hA : isalpha c = (isupper c || islower c) := rfl
    cases hU : isupper c <;> cases hL : islower c <;>
      simp [List.countP_cons, hA, hU, hL] <;> omega

/-- An upper-case ASCII letter is a letter, so the spec's guard is
redundant on the upper bucket. -/
theorem upper_pred (c : Nat) : (isalpha c && isupper c) = isupper c := by
  have hA : isalpha c = (isupper c || islower c) := rfl
  cases hU : isupper c <;> cases hL : islower c <;> simp [hA, hU, hL]

/-- The ASCII upper and lower ranges are disjoint. -/
theorem isupper_eq_false_of_islower (c : Nat) (h : islower c = true) :
    isupper c = false := by
  simp only [islower, Bool.and_eq_true, decide_eq_true_eq] at h
  have h90 : ¬ (c ≤ 90) := by omega
  simp [isupper, h90]

/-- The spec's lower bucket (alphabetic and lower-case) coincides with the
code's `else if (islower ...)` branch guard. -/
theorem lower_pred (c : Nat) : (isalpha c && islower c) = (!isupper c && islower c) := by
  have hA : isalpha c = (isupper c || islower c) := rfl
  cases hL : islower c
  · simp [hA, hL]
  · have hU := isupper_eq_false_of_islower c hL
    simp [hA, hL, hU]

/-- `check_policy` computes exactly the spec's ordered first-failing-check
function. -/
theorem check_policy_eq_spec (cfg : PolicyConfig) (pw : List Nat) :
    check_policy cfg pw = spec_first_fail cfg pw := by
  have hu : (fun c => isalpha c && isupper c) = (fun c : Nat => isupper c) :=
    funext upper_pred
  have hl : (fun c => isalpha c && islower c) = (fun c : Nat => !isupper c && islower c) :=
    funext lower_pred
  unfold check_policy spec_first_fail tally
  rw [foldl_classify_eq, hu, hl]
  simp only [← List.countP_eq_length_filter, Nat.zero_add]

/-- A list occurs at the head of itself followed by anything. -/
theorem starts_with_append (u post : List Nat) : starts_with u (u ++ post) = true := by
  induction u with
  | nil => rfl
  | cons a as ih => simp [starts_with, ih]

/-- `strstr` with an empty needle always reports a match. -/
theorem strstr_found_nil_needle (hay : List Nat) : strstr_found hay [] = true := by
  cases hay with
  | nil => rfl
  | cons c rest => rfl

/-- `strstr` finds any needle that occurs contiguously in the haystack. -/
theorem strstr_found_of_append (u pre post : List Nat) :
    strstr_found (pre ++ u ++ post) u = true := by
  induction pre with
  | nil =>
    cases u with
    | nil => simpa using strstr_found_nil_needle post
    | cons a as =>
      show strstr_found (a :: (as ++ post)) (a :: as) = true
      have h := starts_with_append (a :: as) post
      rw [List.cons_append] at h
      simp only [strstr_found, h, Bool.true_or]
  | cons p pre' ih =>
    show strstr_found (p :: (pre' ++ u ++ post)) u = true
    simp only [strstr_found, ih, Bool.or_true]

/-- Unfolding of `check_password` on the plaintext path. -/
theorem check_password_plaintext (verify : List Nat → List Nat → List Nat → Bool)
    (cfg : PolicyConfig) (username pw : List Nat) (t : Int) (n : Bool)
    (dict : Option (List Nat → Bool)) :
    check_password verify cfg username pw PasswordType.plaintext t n dict =
      (if pw.length < cfg.passMinLength then Verdict.reject Reason.TooShort
       else if strstr_found pw username then Verdict.reject Reason.ContainsUsername
       else match check_policy cfg pw with
        | Verdict.reject r => Verdict.reject r
        | Verdict.accept =>
          match dict with
          | some crack => if crack pw then Verdict.reject Reason.DictionaryGuessable
                          else Verdict.accept
          | none => Verdict.accept) := rfl

/-- A successful `define_variables` run forces every value into its GUC
range and the sub-minimums below the minimum length. -/
theorem define_variables_ok_inv (len spc num up lo : Int) (cfg : PolicyConfig)
    (h : define_variables len spc num up lo = Except.ok cfg) :
    1 ≤ len ∧ len ≤ INT_MAX ∧ 1 ≤ spc ∧ spc ≤ INT_MAX ∧ 1 ≤ num ∧ num ≤ INT_MAX ∧
      1 ≤ up ∧ up ≤ INT_MAX ∧ 1 ≤ lo ∧ lo ≤ INT_MAX ∧ spc + num + up + lo ≤ len := by
  unfold define_variables at h
  repeat' split at h
  all_goals simp_all [gucInRange]

/-- In-range values whose sub-minimums fit inside the minimum length are
accepted as a configuration. -/
theorem define_variables_ok (len spc num up lo : Int)
    (h1 : 1 ≤ len) (h2 : len ≤ INT_MAX) (h3 : 1 ≤ spc) (h4 : spc ≤ INT_MAX)
    (h5 : 1 ≤ num) (h6 : num ≤ INT_MAX) (h7 : 1 ≤ up) (h8 : up ≤ INT_MAX)
    (h9 : 1 ≤ lo) (h10 : lo ≤ INT_MAX) (hsum : spc + num + up + lo ≤ len) :
    define_variables len spc num up lo =
      Except.ok ⟨len.toNat, spc.toNat, num.toNat, up.toNat, lo.toNat⟩ := by
  have g1 : gucInRange len = true := by simp [gucInRange]; omega
  have g2 : gucInRange spc = true := by simp [gucInRange]; omega
  have g3 : gucInRange num = true := by simp [gucInRange]; omega
  have g4 : gucInRange up = true := by simp [gucInRange]; omega
  have g5 : gucInRange lo = true := by simp [gucInRange]; omega
  have hns : ¬ len < spc + num + up + lo := by omega
  simp [define_variables, g1, g2, g3, g4, g5, hns]

/-- The only two outcomes of `define_variables` are acceptance and the
single configuration error. -/
theorem define_variables_error (len spc num up lo : Int)
    (h : ∀ cfg : PolicyConfig, define_variables len spc num up lo ≠ Except.ok cfg) :
    define_variables len spc num up lo = Except.error ConfigError.InconsistentThresholds := by
  cases hd : define_variables len spc num up lo with
  | error e => cases e; rfl
  | ok cfg => exact absurd hd (h cfg)

/-- Claim C1: for every plaintext password that passes the length and
username-containment checks, the tallies are compared against the
thresholds in the fixed order digits, special, uppercase, lowercase, and
the verdict is the first failing check; in particular `"AAAAAAAA"` under
the default configuration is rejected with `TooFewDigits`. -/
theorem policy_first_failure :
    (∀ (verify : List Nat → List Nat → List Nat → Bool) (cfg : PolicyConfig)
        (username pw : List Nat) (t : Int) (n : Bool),
      ¬ pw.length < cfg.passMinLength →
      strstr_found pw username = false →
      check_password verify cfg username pw PasswordType.plaintext t n none =
        spec_first_fail cfg pw) ∧
    (∀ (verify : List Nat → List Nat → List Nat → Bool) (t : Int) (n : Bool),
      check_password verify default_config (ascii "alice") (ascii "AAAAAAAA")
          PasswordType.plaintext t n none = Verdict.reject Reason.TooFewDigits) := by
  constructor
  · intro verify cfg username pw t n hlen hsub
    rw [check_password_plaintext, if_neg hlen, if_neg (by simp [hsub]),
      check_policy_eq_spec]
    cases spec_first_fail cfg pw <;> rfl
  · intro verify t n
    rfl

/-- Witness for C1 at the concrete scenario of the claim. -/
theorem policy_first_failure_witness :
    check_password (fun _ _ _ => false) default_config (ascii "alice") (ascii "AAAAAAAA")
        PasswordType.plaintext 0 false none =
      spec_first_fail default_config (ascii "AAAAAAAA") :=
  policy_first_failure.1 (fun _ _ _ => false) default_config (ascii "alice")
    (ascii "AAAAAAAA") 0 false (by decide) (by decide)

/-- Claim C2: a plaintext password shorter than `passMinLength` is
rejected as too short, whatever its composition and whether or not it
contains the username. -/
theorem too_short_rejects (verify : List Nat → List Nat → List Nat → Bool)
    (cfg : PolicyConfig) (username pw : List Nat) (t : Int) (n : Bool)
    (dict : Option (List Nat → Bool)) (h : pw.length < cfg.passMinLength) :
    check_password verify cfg username pw PasswordType.plaintext t n dict =
      Verdict.reject Reason.TooShort := by
  rw [check_password_plaintext, if_pos h]

/-- Witness for C2 at the spec's scenario (`"short1!"`, length 7 < 8). -/
theorem too_short_rejects_witness :
    check_password (fun _ _ _ => false) default_config (ascii "alice")
        (ascii "short1!") PasswordType.plaintext 0 false none =
      Verdict.reject Reason.TooShort :=
  too_short_rejects (fun _ _ _ => false) default_config (ascii "alice")
    (ascii "short1!") 0 false none (by decide)

/-- Claim C3: a plaintext password of sufficient length that contains the
username as a contiguous substring is rejected with `ContainsUsername`,
whatever its composition. -/
theorem contains_username_rejects (verify : List Nat → List Nat → List Nat → Bool)
    (cfg : PolicyConfig) (username pw : List Nat) (t : Int) (n : Bool)
    (dict : Option (List Nat → Bool))
    (hsub : ∃ pre post, pw = pre ++ username ++ post)
    (hlen : cfg.passMinLength ≤ pw.length) :
    check_password verify cfg username pw PasswordType.plaintext t n dict =
      Verdict.reject Reason.ContainsUsername := by
  obtain ⟨pre, post, rfl⟩ := hsub
  have hfound : strstr_found (pre ++ username ++ post) username = true :=
    strstr_found_of_append username pre post
  have hnl : ¬ (pre ++ username ++ post).length < cfg.passMinLength := by omega
  rw [check_password_plaintext, if_neg hnl, if_pos hfound]

/-- Witness for C3 at the spec's scenario (`"bob"` inside `"bobPass12!@"`). -/
theorem contains_username_rejects_witness :
    check_password (fun _ _ _ => false) default_config (ascii "bob")
        (ascii "bobPass12!@") PasswordType.plaintext 0 false none =
      Verdict.reject Reason.ContainsUsername :=
  contains_username_rejects (fun _ _ _ => false) default_config (ascii "bob")
    (ascii "bobPass12!@") 0 false none ⟨[], ascii "Pass12!@", by decide⟩ (by decide)

/-- Claim C4: the single-pass classification is a total partition — the
digit, special, upper, lower, and caseless-letter buckets sum to the
password's length (and the two cased buckets never exceed the letter
count). -/
theorem classification_partition (pw : List Nat) :
    (tally pw).upper_count + (tally pw).lower_count ≤ (tally pw).letter_count ∧
    (tally pw).number_count + (tally pw).spc_char_count + (tally pw).upper_count +
        (tally pw).lower_count +
        ((tally pw).letter_count - (tally pw).upper_count - (tally pw).lower_count) =
      pw.length := by
  have h1 := countP_class_split pw
  have h2 := countP_alpha_split pw
  unfold tally
  rw [foldl_classify_eq]
  dsimp only
  constructor <;> omega

/-- Claim C5 (amended): the configuration check rejects sub-minimums that
sum to more than the minimum length — `(5,2,2,2,2)` fails — and accepts
every configuration whose five values lie in their registered GUC ranges
(1 to `INT_MAX`) with the sub-minimums summing to at most the minimum
length. -/
theorem config_sum_invariant :
    define_variables 5 2 2 2 2 = Except.error ConfigError.InconsistentThresholds ∧
    (∀ len spc num up lo : Int, len < spc + num + up + lo →
      ∀ cfg : PolicyConfig, define_variables len spc num up lo ≠ Except.ok cfg) ∧
    (∀ len spc num up lo : Int,
      1 ≤ len → len ≤ INT_MAX → 1 ≤ spc → spc ≤ INT_MAX → 1 ≤ num → num ≤ INT_MAX →
      1 ≤ up → up ≤ INT_MAX → 1 ≤ lo → lo ≤ INT_MAX → spc + num + up + lo ≤ len →
      define_variables len spc num up lo =
        Except.ok ⟨len.toNat, spc.toNat, num.toNat, up.toNat, lo.toNat⟩) := by
  refine ⟨rfl, ?_, ?_⟩
  · intro len spc num up lo hsum cfg hok
    have h := define_variables_ok_inv len spc num up lo cfg hok
    omega
  · intro len spc num up lo h1 h2 h3 h4 h5 h6 h7 h8 h9 h10 hsum
    exact define_variables_ok len spc num up lo h1 h2 h3 h4 h5 h6 h7 h8 h9 h10 hsum

/-- Counterexample to C5 as stated: `(10,0,2,2,2)` has
`min_length ≥` sum of sub-minimums, yet it is not accepted — the GUC
range of `p_policy.min_special_chars` starts at 1, not 0. -/
theorem config_sum_counterexample :
    (0 : Int) + 2 + 2 + 2 ≤ 10 ∧
    define_variables 10 0 2 2 2 = Except.error ConfigError.InconsistentThresholds :=
  ⟨by decide, rfl⟩

/-- Witness for C5 at the default configuration. -/
theorem config_sum_invariant_witness :
    define_variables 8 2 2 2 2 = Except.ok ⟨8, 2, 2, 2, 2⟩ :=
  config_sum_invariant.2.2 8 2 2 2 2 (by decide) (by decide) (by decide) (by decide)
    (by decide) (by decide) (by decide) (by decide) (by decide) (by decide) (by decide)

/-- Claim C6 (amended): each sub-minimum threshold is registered with the
GUC range 1 to `INT_MAX`, so any sub-minimum value below 1 — in
particular 0 — makes the configuration fail, while values of at least 1
are accepted whenever all five values are in range and the cross-field
sum invariant holds. -/
theorem submin_range :
    (∀ len spc num up lo : Int, spc ≤ 0 ∨ num ≤ 0 ∨ up ≤ 0 ∨ lo ≤ 0 →
      define_variables len spc num up lo =
        Except.error ConfigError.InconsistentThresholds) ∧
    (∀ len spc num up lo : Int,
      1 ≤ len → len ≤ INT_MAX → 1 ≤ spc → spc ≤ INT_MAX → 1 ≤ num → num ≤ INT_MAX →
      1 ≤ up → up ≤ INT_MAX → 1 ≤ lo → lo ≤ INT_MAX → spc + num + up + lo ≤ len →
      ∃ cfg : PolicyConfig, define_variables len spc num up lo = Except.ok cfg) := by
  constructor
  · intro len spc num up lo hbad
    apply define_variables_error
    intro cfg hok
    have h := define_variables_ok_inv len spc num up lo cfg hok
    rcases hbad with h' | h' | h' | h' <;> omega
  · intro len spc num up lo h1 h2 h3 h4 h5 h6 h7 h8 h9 h10 hsum
    exact ⟨_, define_variables_ok len spc num up lo h1 h2 h3 h4 h5 h6 h7 h8 h9 h10 hsum⟩

/-- Counterexample to C6 as stated: `min_special_chars = 0` with
`min_length = 8 ≥ 1` and sum `0+2+2+2 = 6 ≤ 8` satisfies every condition
of the claim, yet construction fails. -/
theorem submin_zero_counterexample :
    (1 : Int) ≤ 8 ∧ (0 : Int) + 2 + 2 + 2 ≤ 8 ∧
    define_variables 8 0 2 2 2 = Except.error ConfigError.InconsistentThresholds :=
  ⟨by decide, by decide, rfl⟩

/-- Witness for C6: a zero in the `min_numbers` slot is refused. -/
theorem submin_range_witness :
    define_variables 9 2 0 2 2 = Except.error ConfigError.InconsistentThresholds :=
  submin_range.1 9 2 0 2 2 (Or.inr (Or.inl (by decide)))

/-- Claim C7: the default configuration with username `"alice"` and
password `"Ab12!@Cd"` accepts. -/
theorem default_scenario_accept (verify : List Nat → List Nat → List Nat → Bool)
    (t : Int) (n : Bool) :
    check_password verify default_config (ascii "alice") (ascii "Ab12!@Cd")
        PasswordType.plaintext t n none = Verdict.accept := rfl

/-- Claim C8: on a non-plaintext credential the only check is whether the
hash verifies against the username used as the password; success rejects
with `EncryptedPasswordMatchesUsername`, anything else accepts, and the
length, containment, composition and dictionary checks are skipped. -/
theorem encrypted_path_only_username_check
    (verify : List Nat → List Nat → List Nat → Bool) (cfg : PolicyConfig)
    (username pw : List Nat) (ty : PasswordType) (t : Int) (n : Bool)
    (dict : Option (List Nat → Bool)) (h : ty ≠ PasswordType.plaintext) :
    check_password verify cfg username pw ty t n dict =
      if verify username pw username then
        Verdict.reject Reason.EncryptedPasswordMatchesUsername
      else Verdict.accept := by
  unfold check_password
  rw [if_pos h]

/-- Witness for C8 with an MD5 credential whose verifier matches. -/
theorem encrypted_path_witness :
    check_password (fun _ _ _ => true) default_config (ascii "alice") (ascii "xyzhash")
        PasswordType.md5 0 false none =
      Verdict.reject Reason.EncryptedPasswordMatchesUsername := by
  rw [encrypted_path_only_username_check (fun _ _ _ => true) default_config
    (ascii "alice") (ascii "xyzhash") PasswordType.md5 0 false none (by decide)]
  rfl

/-- Claim C9: with an empty username, `strstr` always matches, so every
plaintext password of sufficient length is rejected with
`ContainsUsername`, and no plaintext password is ever accepted. -/
theorem empty_username_rejects_all (verify : List Nat → List Nat → List Nat → Bool)
    (cfg : PolicyConfig) (pw : List Nat) (t : Int) (n : Bool)
    (dict : Option (List Nat → Bool)) :
    (¬ pw.length < cfg.passMinLength →
      check_password verify cfg [] pw PasswordType.plaintext t n dict =
        Verdict.reject Reason.ContainsUsername) ∧
    check_password verify cfg [] pw PasswordType.plaintext t n dict ≠ Verdict.accept := by
  have hstr : strstr_found pw [] = true := strstr_found_nil_needle pw
  constructor
  · intro hlen
    rw [check_password_plaintext, if_neg hlen, if_pos hstr]
  · by_cases hlen : pw.length < cfg.passMinLength
    · rw [check_password_plaintext, if_pos hlen]
      simp
    · rw [check_password_plaintext, if_neg hlen, if_pos hstr]
      simp

/-- Witness for C9 at a structurally perfect password. -/
theorem empty_username_rejects_all_witness :
    check_password (fun _ _ _ => false) default_config [] (ascii "Ab12!@Cd")
        PasswordType.plaintext 0 false none = Verdict.reject Reason.ContainsUsername :=
  (empty_username_rejects_all (fun _ _ _ => false) default_config (ascii "Ab12!@Cd")
    0 false none).1 (by decide)

/-- Claim C10: the verdict of `check_password` never depends on the
password-expiration arguments. -/
theorem verdict_ignores_validuntil (verify : List Nat → List Nat → List Nat → Bool)
    (cfg : PolicyConfig) (username pw : List Nat) (ty : PasswordType)
    (t1 : Int) (n1 : Bool) (t2 : Int) (n2 : Bool) (dict : Option (List Nat → Bool)) :
    check_password verify cfg username pw ty t1 n1 dict =
      check_password verify cfg username pw ty t2 n2 dict := rfl

end PasswordPolicy
